import Mathlib

/-!
Verification of the logging-allocator crate (src/src/lib.rs).

A shallow embedding of the crate's single library file. The crate wraps an
arbitrary `GlobalAlloc` delegate, forwards every request to it, and — when a
runtime flag is enabled and the calling thread is not already inside the
logging machinery — emits one log line per request on stderr. A compile-time
`warn` feature additionally prints a warning for oversized requests.

Modelling conventions:
* pointers (`*mut u8`) are naturals, with `0` standing for the null failure
  sentinel; sizes and alignments (`usize`) are naturals;
* a delegate allocator (`A: GlobalAlloc`) is a deterministic state machine
  `GlobalAllocM S` over an internal state type `S`;
* the thread-local re-entrancy guard of `run_guarded` is an explicit `Bool`
  threaded through each operation (the operations model one calling thread);
* each `eprintln!` call appends one `Line` to an explicit stderr stream; the
  two `warn`-feature call sites produce `Line.warn`, the four guarded logging
  call sites produce `Line.log`;
* captured backtrace text (`Backtrace::capture()` / `backtrace::Backtrace::new()`)
  is an environment input, passed to each operation as a string `bt`;
* the `#[cfg(feature = "warn")]` conditional compilation is a `Bool`
  parameter `warnF` on the operations that contain such a block.
-/

namespace LoggingAlloc

/-- Rust `std::alloc::Layout`: the (size, alignment) pair of a request. -/
structure Layout where
  size : Nat
  align : Nat
deriving Repr, DecidableEq

/-- Validity of a Rust `Layout`: the alignment is a power of two (hence
nonzero). This is the caller-side precondition "valid layout". -/
def Layout.valid (l : Layout) : Prop :=
  ∃ k : Nat, l.align = 2 ^ k

/-- Source constant `WARNING_THRESHOLD: usize = 1_000_000` (under `#[cfg(feature = "warn")]`). -/
def WARNING_THRESHOLD : Nat := 1000000

/-- Rendering of a pointer for the `{:p}` format specifier (lower-case hex). -/
def fmtPtr (p : Nat) : String :=
  "0x" ++ String.mk (Nat.toDigits 16 p)

/-- Source `struct Fmt(*mut u8, usize, usize, bool)` together with its `Display`
implementation: the terse form `[address=.., size=.., align=..]` when the
flag is `false`, and the same fields followed by ` at:` and the captured
backtrace on the next line when the flag is `true`. `bt` is the text that
`Backtrace::capture()` yields at this call. -/
def Fmt (ptr size align : Nat) (full : Bool) (bt : String) : String :=
  if full then
    "[address=" ++ fmtPtr ptr ++ ", size=" ++ toString size ++ ", align=" ++
      toString align ++ "] at:\n" ++ bt
  else
    "[address=" ++ fmtPtr ptr ++ ", size=" ++ toString size ++ ", align=" ++
      toString align ++ "]"

/-- One `eprintln!` emission. The two oversized-request warning call sites
(under the `warn` feature) are tagged `warn`; the four `run_guarded` logging
call sites are tagged `log`. -/
inductive Line
  | warn (text : String)
  | log (text : String)
deriving Repr, DecidableEq

/-- Number of guarded log lines in a stderr stream. -/
def logCount (ls : List Line) : Nat :=
  (ls.filter fun l => match l with | Line.log _ => true | Line.warn _ => false).length

/-- Number of `warn`-feature warning lines in a stderr stream. -/
def warnCount (ls : List Line) : Nat :=
  (ls.filter fun l => match l with | Line.warn _ => true | Line.log _ => false).length

/-- Source `pub struct LoggingAllocator<A> { enabled: AtomicBool, allocator: A }`.
The atomic flag is modelled as a plain `Bool` (all accesses in the source are
`SeqCst` loads/stores of the one flag, so the sequential model is faithful
for any single interleaving). -/
structure LoggingAllocator (A : Type) where
  enabled : Bool
  allocator : A
deriving Repr, DecidableEq

/-- Source `pub const fn with_allocator(allocator: A, enabled: bool) -> Self`. -/
def LoggingAllocator.with_allocator {A : Type} (allocator : A) (enabled : Bool) :
    LoggingAllocator A :=
  { enabled := enabled, allocator := allocator }

/-- Rust `std::alloc::System`, the delegate used by `LoggingAllocator::new`
(opaque: its behaviour is supplied by the host). -/
inductive SystemAllocator
  | system
deriving Repr, DecidableEq

/-- Source `pub const fn new(enabled: bool) -> Self` (on `LoggingAllocator<System>`). -/
def LoggingAllocator.new (enabled : Bool) : LoggingAllocator SystemAllocator :=
  LoggingAllocator.with_allocator SystemAllocator.system enabled

/-- Source `pub fn enable_logging(&self)`: `self.enabled.store(true, SeqCst)`. -/
def LoggingAllocator.enable_logging {A : Type} (s : LoggingAllocator A) :
    LoggingAllocator A :=
  { s with enabled := true }

/-- Source `pub fn disable_logging(&self)`: `self.enabled.store(false, SeqCst)`. -/
def LoggingAllocator.disable_logging {A : Type} (s : LoggingAllocator A) :
    LoggingAllocator A :=
  { s with enabled := false }

/-- Source `pub fn logging_enabled(&self) -> bool`: `self.enabled.load(SeqCst)`. It
reads the flag and mutates nothing (in the model it is a plain projection). -/
def LoggingAllocator.logging_enabled {A : Type} (s : LoggingAllocator A) : Bool :=
  s.enabled

/-- Initial value of the thread-local guard cell:
`thread_local! { static GUARD: Cell<bool> = Cell::new(false) }`. -/
def GUARD_INIT : Bool := false

/-- Source `pub fn run_guarded<F: FnOnce()>(f: F)` for callbacks that return
normally. The callback receives the guard value it would read from the
thread-local cell (always `true` while it runs) and the mutable context `x`,
and returns the guard value it leaves in the cell together with the new
context — so a callback may itself invoke `run_guarded`. Faithful to the
source: `if !guard.replace(true) { f(); guard.set(false) }`. -/
def run_guarded {α : Type} (f : Bool → α → Bool × α) (guard : Bool) (x : α) :
    Bool × α :=
  let old := guard
  if !old then
    let r := f true x
    (false, r.2)
  else
    (true, x)

/-- Whether a callback returned normally or exited by unwinding. -/
inductive Outcome
  | normal
  | panicked
deriving Repr, DecidableEq

/-- Behaviour of `run_guarded` as executed when the callback may exit by unwinding.
`guard.replace(true)` runs first; when the guard was inactive the callback
runs; on a normal return the trailing `guard.set(false)` executes, while a
panic propagates out of `run_guarded` before `guard.set(false)` is reached,
leaving the cell holding whatever value the callback last stored (for a
callback that does not touch the cell: `true`). -/
def run_guarded_u {α : Type} (f : Bool → α → Outcome × Bool × α) (guard : Bool)
    (x : α) : Outcome × Bool × α :=
  let old := guard
  if !old then
    match f true x with
    | (Outcome.normal, _, x') => (Outcome.normal, false, x')
    | (Outcome.panicked, g', x') => (Outcome.panicked, g', x')
  else
    (Outcome.normal, true, x)

/-- The model of a delegate `GlobalAlloc` implementation: a deterministic
state machine over an internal state `S`. Returned naturals are addresses,
with `0` the null failure sentinel. -/
structure GlobalAllocM (S : Type) where
  alloc : S → Layout → S × Nat
  dealloc : S → Nat → Layout → S
  alloc_zeroed : S → Layout → S × Nat
  realloc : S → Nat → Layout → Nat → S × Nat

/-- Machine state for running `LoggingAllocator` operations on one thread:
the wrapper itself (flag + delegate internal state in the `allocator` field),
the calling thread's guard cell, and the stderr stream. -/
structure WState (S : Type) where
  self : LoggingAllocator S
  guard : Bool
  stderr : List Line
deriving Repr, DecidableEq

/-- Method `fn alloc(&self, layout: Layout) -> *mut u8` of the impl. The `warn`-feature
block runs first (when compiled in), then the delegate call, then the guarded
log line; the delegate's pointer is returned unchanged. -/
def LoggingAllocator.alloc {S : Type} (warnF : Bool) (d : GlobalAllocM S)
    (bt : String) (st : WState S) (layout : Layout) : WState S × Nat :=
  let stderr0 :=
    if warnF && decide (layout.size > WARNING_THRESHOLD) then
      st.stderr ++ [Line.warn ("large allocation at " ++ bt)]
    else
      st.stderr
  let r := d.alloc st.self.allocator layout
  let ptr := r.2
  let gout :=
    if st.self.logging_enabled then
      run_guarded
        (fun g out =>
          (g, out ++ [Line.log ("alloc " ++ Fmt ptr layout.size layout.align true bt)]))
        st.guard stderr0
    else
      (st.guard, stderr0)
  ({ self := { st.self with allocator := r.1 }, guard := gout.1, stderr := gout.2 }, ptr)

/-- Method `fn dealloc(&self, ptr: *mut u8, layout: Layout)` of the impl: delegate first
(unconditionally), then the guarded log line. No `warn`-feature block. -/
def LoggingAllocator.dealloc {S : Type} (d : GlobalAllocM S) (bt : String)
    (st : WState S) (ptr : Nat) (layout : Layout) : WState S :=
  let s' := d.dealloc st.self.allocator ptr layout
  let gout :=
    if st.self.logging_enabled then
      run_guarded
        (fun g out =>
          (g, out ++ [Line.log ("dealloc " ++ Fmt ptr layout.size layout.align true bt)]))
        st.guard st.stderr
    else
      (st.guard, st.stderr)
  { self := { st.self with allocator := s' }, guard := gout.1, stderr := gout.2 }

/-- Method `fn alloc_zeroed(&self, layout: Layout) -> *mut u8` of the impl: delegate's
zeroing call, then the guarded log line. Note: the source contains no
`#[cfg(feature = "warn")]` block in this method. -/
def LoggingAllocator.alloc_zeroed {S : Type} (d : GlobalAllocM S) (bt : String)
    (st : WState S) (layout : Layout) : WState S × Nat :=
  let r := d.alloc_zeroed st.self.allocator layout
  let ptr := r.2
  let gout :=
    if st.self.logging_enabled then
      run_guarded
        (fun g out =>
          (g, out ++ [Line.log ("alloc_zeroed " ++ Fmt ptr layout.size layout.align true bt)]))
        st.guard st.stderr
    else
      (st.guard, st.stderr)
  ({ self := { st.self with allocator := r.1 }, guard := gout.1, stderr := gout.2 }, ptr)

/-- Method `fn realloc(&self, ptr: *mut u8, layout: Layout, new_size: usize) -> *mut u8`.
The `warn`-feature block checks `new_size` first (when compiled in), then the
delegate call, then one guarded log line holding the terse old descriptor and
the full new descriptor. -/
def LoggingAllocator.realloc {S : Type} (warnF : Bool) (d : GlobalAllocM S)
    (bt : String) (st : WState S) (ptr : Nat) (layout : Layout) (new_size : Nat) :
    WState S × Nat :=
  let stderr0 :=
    if warnF && decide (new_size > WARNING_THRESHOLD) then
      st.stderr ++ [Line.warn ("large reallocation at " ++ bt)]
    else
      st.stderr
  let r := d.realloc st.self.allocator ptr layout new_size
  let new_ptr := r.2
  let gout :=
    if st.self.logging_enabled then
      run_guarded
        (fun g out =>
          (g, out ++
            [Line.log ("realloc " ++ Fmt ptr layout.size layout.align false bt ++
              " to " ++ Fmt new_ptr new_size layout.align true bt)]))
        st.guard stderr0
    else
      (st.guard, stderr0)
  ({ self := { st.self with allocator := r.1 }, guard := gout.1, stderr := gout.2 }, new_ptr)

/-- One caller request against the allocator interface, with the arguments
the caller supplied. -/
inductive AllocReq
  | alloc (layout : Layout)
  | dealloc (ptr : Nat) (layout : Layout)
  | alloc_zeroed (layout : Layout)
  | realloc (ptr : Nat) (layout : Layout) (new_size : Nat)
deriving Repr, DecidableEq

/-- The layout a request carries. -/
def AllocReq.layout : AllocReq → Layout
  | AllocReq.alloc l => l
  | AllocReq.dealloc _ l => l
  | AllocReq.alloc_zeroed l => l
  | AllocReq.realloc _ l _ => l

/-- Run one request through the wrapper. `dealloc` has no return value. -/
def wrapperStep {S : Type} (warnF : Bool) (d : GlobalAllocM S) (bt : String)
    (st : WState S) : AllocReq → WState S × Option Nat
  | AllocReq.alloc l =>
      let r := LoggingAllocator.alloc warnF d bt st l
      (r.1, some r.2)
  | AllocReq.dealloc p l =>
      (LoggingAllocator.dealloc d bt st p l, none)
  | AllocReq.alloc_zeroed l =>
      let r := LoggingAllocator.alloc_zeroed d bt st l
      (r.1, some r.2)
  | AllocReq.realloc p l n =>
      let r := LoggingAllocator.realloc warnF d bt st p l n
      (r.1, some r.2)

/-- Run a request sequence through the wrapper, collecting the returned
addresses (`none` for `dealloc`, which returns nothing). -/
def wrapperRun {S : Type} (warnF : Bool) (d : GlobalAllocM S) (bt : String)
    (st : WState S) : List AllocReq → WState S × List (Option Nat)
  | [] => (st, [])
  | req :: reqs =>
      let r := wrapperStep warnF d bt st req
      let rest := wrapperRun warnF d bt r.1 reqs
      (rest.1, r.2 :: rest.2)

/-- Run one request directly against the delegate, with no wrapper. -/
def delegateStep {S : Type} (d : GlobalAllocM S) (s : S) :
    AllocReq → S × Option Nat
  | AllocReq.alloc l =>
      let r := d.alloc s l
      (r.1, some r.2)
  | AllocReq.dealloc p l =>
      (d.dealloc s p l, none)
  | AllocReq.alloc_zeroed l =>
      let r := d.alloc_zeroed s l
      (r.1, some r.2)
  | AllocReq.realloc p l n =>
      let r := d.realloc s p l n
      (r.1, some r.2)

/-- Run a request sequence directly against the delegate alone. -/
def delegateRun {S : Type} (d : GlobalAllocM S) (s : S) :
    List AllocReq → S × List (Option Nat)
  | [] => (s, [])
  | req :: reqs =>
      let r := delegateStep d s req
      let rest := delegateRun d r.1 reqs
      (rest.1, r.2 :: rest.2)

/-- A delegate whose state records every call it receives, verbatim, and
answers addresses from an arbitrary oracle `ret`: the instrument used to
express that the wrapper calls the delegate exactly once per request with
exactly the supplied arguments. -/
def recorder (ret : AllocReq → Nat) : GlobalAllocM (List AllocReq) where
  alloc s l := (s ++ [AllocReq.alloc l], ret (AllocReq.alloc l))
  dealloc s p l := s ++ [AllocReq.dealloc p l]
  alloc_zeroed s l := (s ++ [AllocReq.alloc_zeroed l], ret (AllocReq.alloc_zeroed l))
  realloc s p l n := (s ++ [AllocReq.realloc p l n], ret (AllocReq.realloc p l n))

/-- A concrete bump delegate, used to evaluate the model on closed inputs:
the state is a counter and every allocation returns the next nonzero address. -/
def exD : GlobalAllocM Nat where
  alloc s _ := (s + 1, s + 1)
  dealloc s _ _ := s
  alloc_zeroed s _ := (s + 1, s + 1)
  realloc s _ _ _ := (s + 1, s + 1)

/-- A concrete machine state with logging disabled, an inactive guard and an
empty stderr stream. -/
def exOff : WState Nat :=
  { self := { enabled := false, allocator := 0 }, guard := false, stderr := [] }

/-- A concrete machine state with logging enabled, an inactive guard and an
empty stderr stream. -/
def exOn : WState Nat :=
  { self := { enabled := true, allocator := 0 }, guard := false, stderr := [] }

/-- A request sequence used for closed-input evaluation. -/
def exReqs : List AllocReq :=
  [AllocReq.alloc ⟨16, 8⟩, AllocReq.realloc 1 ⟨16, 8⟩ 64, AllocReq.dealloc 2 ⟨64, 8⟩]

theorem wrapperStep_allocator {S : Type} (warnF : Bool) (d : GlobalAllocM S)
    (bt : String) (st : WState S) (req : AllocReq) :
    (wrapperStep warnF d bt st req).1.self.allocator
      = (delegateStep d st.self.allocator req).1 := by
  cases req <;> rfl

theorem wrapperStep_result {S : Type} (warnF : Bool) (d : GlobalAllocM S)
    (bt : String) (st : WState S) (req : AllocReq) :
    (wrapperStep warnF d bt st req).2 = (delegateStep d st.self.allocator req).2 := by
  cases req <;> rfl

theorem wrapperStep_enabled {S : Type} (warnF : Bool) (d : GlobalAllocM S)
    (bt : String) (st : WState S) (req : AllocReq) :
    (wrapperStep warnF d bt st req).1.self.enabled = st.self.enabled := by
  cases req <;> rfl

theorem wrapperRun_refines {S : Type} (warnF : Bool) (d : GlobalAllocM S)
    (bt : String) (reqs : List AllocReq) :
    ∀ st : WState S,
      (wrapperRun warnF d bt st reqs).1.self.allocator
          = (delegateRun d st.self.allocator reqs).1
      ∧ (wrapperRun warnF d bt st reqs).2 = (delegateRun d st.self.allocator reqs).2 := by
  induction reqs with
  | nil => intro st; exact ⟨rfl, rfl⟩
  | cons req reqs ih =>
      intro st
      simp only [wrapperRun, delegateRun]
      refine ⟨?_, ?_⟩
      · rw [(ih _).1, wrapperStep_allocator]
      · rw [(ih _).2, wrapperStep_result, wrapperStep_allocator]

theorem wrapperRun_enabled {S : Type} (warnF : Bool) (d : GlobalAllocM S)
    (bt : String) (reqs : List AllocReq) :
    ∀ st : WState S, (wrapperRun warnF d bt st reqs).1.self.enabled = st.self.enabled := by
  induction reqs with
  | nil => intro st; rfl
  | cons req reqs ih =>
      intro st
      simp only [wrapperRun]
      rw [ih _, wrapperStep_enabled]

theorem delegateRun_recorder (ret : AllocReq → Nat) (reqs : List AllocReq) :
    ∀ s : List AllocReq, (delegateRun (recorder ret) s reqs).1 = s ++ reqs := by
  induction reqs with
  | nil => intro s; simp [delegateRun]
  | cons req reqs ih =>
      intro s
      have h : (delegateStep (recorder ret) s req).1 = s ++ [req] := by
        cases req <;> rfl
      simp only [delegateRun]
      rw [ih, h]
      simp

/-- C1: for every request sequence with valid layouts and either state of the
logging flag (and any guard / stderr state), the wrapper returns exactly the
delegate's results unchanged and drives the delegate through exactly the
states the delegate alone would reach; instantiating the delegate with a
recording state machine shows the delegate is called exactly once per
request, in order, with exactly the size/alignment/address the caller
supplied. -/
theorem pass_through_refinement {S : Type} (warnF : Bool) (d : GlobalAllocM S)
    (bt : String) (reqs : List AllocReq) (st : WState S)
    (_hv : ∀ r ∈ reqs, r.layout.valid) :
    (wrapperRun warnF d bt st reqs).2 = (delegateRun d st.self.allocator reqs).2
    ∧ (wrapperRun warnF d bt st reqs).1.self.allocator
        = (delegateRun d st.self.allocator reqs).1
    ∧ ∀ (ret : AllocReq → Nat) (enabled g : Bool) (errs : List Line),
        (wrapperRun warnF (recorder ret) bt
          { self := { enabled := enabled, allocator := [] }, guard := g, stderr := errs }
          reqs).1.self.allocator = reqs := by
  refine ⟨(wrapperRun_refines warnF d bt reqs st).2,
          (wrapperRun_refines warnF d bt reqs st).1, ?_⟩
  intro ret enabled g errs
  rw [(wrapperRun_refines warnF (recorder ret) bt reqs _).1]
  simpa using delegateRun_recorder ret reqs []

/-- Witness for C1 at a concrete delegate, request list and state. -/
theorem pass_through_refinement_witness :
    (∀ r ∈ exReqs, r.layout.valid)
    ∧ ((wrapperRun true exD "trace" exOn exReqs).2
          = (delegateRun exD exOn.self.allocator exReqs).2
        ∧ (wrapperRun true exD "trace" exOn exReqs).1.self.allocator
            = (delegateRun exD exOn.self.allocator exReqs).1
        ∧ ∀ (ret : AllocReq → Nat) (enabled g : Bool) (errs : List Line),
            (wrapperRun true (recorder ret) "trace"
              { self := { enabled := enabled, allocator := [] }, guard := g, stderr := errs }
              exReqs).1.self.allocator = exReqs) := by
  have hv : ∀ r ∈ exReqs, r.layout.valid := by
    intro r hr
    simp [exReqs] at hr
    rcases hr with h | h | h <;> subst h <;> exact ⟨3, rfl⟩
  exact ⟨hv, pass_through_refinement true exD "trace" exReqs exOn hv⟩

/-- A callback that exits by unwinding, leaving the guard cell holding the
value it read (it does not itself touch the cell). -/
def panicCallback : Bool → Nat → Outcome × Bool × Nat :=
  fun g n => (Outcome.panicked, g, n)

/-- A callback that returns normally after bumping a counter: its execution
is observable in the final counter value. -/
def bumpCallback : Bool → Nat → Outcome × Bool × Nat :=
  fun g n => (Outcome.normal, g, n + 1)

/-- C2 (evaluation of the code at the failing input): starting from the
initial (inactive) guard, a callback that unwinds leaves the guard ACTIVE —
`guard.set(false)` on line 56 is skipped because the source has no
drop/finally protection — and a subsequent `run_guarded` call on the same
thread therefore skips its callback (the counter stays 0 and the guard stays
active), contradicting the claimed guaranteed reset. -/
theorem guard_stuck_after_unwind :
    run_guarded_u panicCallback GUARD_INIT 0 = (Outcome.panicked, true, 0)
    ∧ run_guarded_u bumpCallback
        (run_guarded_u panicCallback GUARD_INIT 0).2.1
        (run_guarded_u panicCallback GUARD_INIT 0).2.2
        = (Outcome.normal, true, 0) := by
  exact ⟨rfl, rfl⟩

/-- C3: the thread-local guard starts inactive; `run_guarded` under an active
guard skips the callback entirely (no effect of `f` appears) and leaves the
guard active; under an inactive guard it applies the callback exactly once,
with the guard cell reading active inside, and resets the guard to inactive
after a normal return — including when the callback itself recursively calls
`run_guarded`, whose nested invocation is a no-op. -/
theorem run_guarded_contract (α : Type) :
    GUARD_INIT = false
    ∧ (∀ (f : Bool → α → Bool × α) (x : α), run_guarded f true x = (true, x))
    ∧ (∀ (f : Bool → α → Bool × α) (x : α),
        run_guarded f false x = (false, (f true x).2))
    ∧ (∀ (f : Bool → α → Bool × α) (x : α),
        run_guarded (fun g y => run_guarded f g y) false x = (false, x)) :=
  ⟨rfl, fun _ _ => rfl, fun _ _ => rfl, fun _ _ => rfl⟩

/-- C8: `enable_logging` makes `logging_enabled` read true, `disable_logging`
makes it read false, and both leave the `allocator` field untouched;
`logging_enabled` is a pure read (in the model it is a projection and takes
no state to a new state). -/
theorem toggle_frame {A : Type} (s : LoggingAllocator A) :
    (s.enable_logging).logging_enabled = true
    ∧ (s.disable_logging).logging_enabled = false
    ∧ (s.enable_logging).allocator = s.allocator
    ∧ (s.disable_logging).allocator = s.allocator :=
  ⟨rfl, rfl, rfl, rfl⟩

/-- C9: `with_allocator(a, e)` stores the delegate `a` and starts with the
flag equal to `e`; `new(e)` is `with_allocator(System, e)`; and no allocator
operation changes the flag, so `logging_enabled` keeps returning `e` until
`enable_logging` or `disable_logging` is called. -/
theorem constructor_flag {A : Type} (a : A) (e : Bool) :
    (LoggingAllocator.with_allocator a e).logging_enabled = e
    ∧ (LoggingAllocator.with_allocator a e).allocator = a
    ∧ LoggingAllocator.new e = LoggingAllocator.with_allocator SystemAllocator.system e
    ∧ (LoggingAllocator.new e).logging_enabled = e
    ∧ ∀ (S : Type) (warnF : Bool) (d : GlobalAllocM S) (bt : String)
        (reqs : List AllocReq) (s0 : S) (g : Bool) (errs : List Line),
        (wrapperRun warnF d bt
          { self := LoggingAllocator.with_allocator s0 e, guard := g, stderr := errs }
          reqs).1.self.logging_enabled = e := by
  refine ⟨rfl, rfl, rfl, rfl, ?_⟩
  intro S warnF d bt reqs s0 g errs
  exact wrapperRun_enabled warnF d bt reqs _

@[simp]
theorem logCount_nil : logCount [] = 0 := rfl

@[simp]
theorem logCount_append (xs ys : List Line) :
    logCount (xs ++ ys) = logCount xs + logCount ys := by
  simp [logCount, List.filter_append]

@[simp]
theorem logCount_warn_single (t : String) : logCount [Line.warn t] = 0 := rfl

@[simp]
theorem logCount_log_single (t : String) : logCount [Line.log t] = 1 := rfl

@[simp]
theorem warnCount_nil : warnCount [] = 0 := rfl

@[simp]
theorem warnCount_append (xs ys : List Line) :
    warnCount (xs ++ ys) = warnCount xs + warnCount ys := by
  simp [warnCount, List.filter_append]

@[simp]
theorem warnCount_warn_single (t : String) : warnCount [Line.warn t] = 1 := rfl

@[simp]
theorem warnCount_log_single (t : String) : warnCount [Line.log t] = 0 := rfl

@[simp]
theorem logCount_cons_warn (t : String) (ls : List Line) :
    logCount (Line.warn t :: ls) = logCount ls := by
  simp [logCount]

@[simp]
theorem logCount_cons_log (t : String) (ls : List Line) :
    logCount (Line.log t :: ls) = logCount ls + 1 := by
  simp [logCount]

@[simp]
theorem warnCount_cons_warn (t : String) (ls : List Line) :
    warnCount (Line.warn t :: ls) = warnCount ls + 1 := by
  simp [warnCount]

@[simp]
theorem warnCount_cons_log (t : String) (ls : List Line) :
    warnCount (Line.log t :: ls) = warnCount ls := by
  simp [warnCount]

theorem run_guarded_fst {α : Type} (f : Bool → α → Bool × α) (g : Bool) (x : α) :
    (run_guarded f g x).1 = g := by
  cases g <;> rfl

/-- Characterization of `alloc`'s stderr across all flag/guard states. -/
theorem alloc_stderr {S : Type} (warnF : Bool) (d : GlobalAllocM S) (bt : String)
    (st : WState S) (l : Layout) :
    (LoggingAllocator.alloc warnF d bt st l).1.stderr =
      (let s0 :=
        if warnF && decide (l.size > WARNING_THRESHOLD) then
          st.stderr ++ [Line.warn ("large allocation at " ++ bt)]
        else
          st.stderr
       if st.self.enabled && !st.guard then
        s0 ++ [Line.log ("alloc " ++ Fmt (d.alloc st.self.allocator l).2 l.size l.align true bt)]
       else
        s0) := by
  obtain ⟨⟨e, a⟩, g, errs⟩ := st
  cases e <;> cases g <;> rfl

/-- Characterization of `dealloc`'s stderr across all flag/guard states. -/
theorem dealloc_stderr {S : Type} (d : GlobalAllocM S) (bt : String)
    (st : WState S) (p : Nat) (l : Layout) :
    (LoggingAllocator.dealloc d bt st p l).stderr =
      (if st.self.enabled && !st.guard then
        st.stderr ++ [Line.log ("dealloc " ++ Fmt p l.size l.align true bt)]
       else
        st.stderr) := by
  obtain ⟨⟨e, a⟩, g, errs⟩ := st
  cases e <;> cases g <;> rfl

/-- Characterization of `alloc_zeroed`'s stderr across all flag/guard states:
no warning site exists in this method. -/
theorem alloc_zeroed_stderr {S : Type} (d : GlobalAllocM S) (bt : String)
    (st : WState S) (l : Layout) :
    (LoggingAllocator.alloc_zeroed d bt st l).1.stderr =
      (if st.self.enabled && !st.guard then
        st.stderr ++
          [Line.log ("alloc_zeroed " ++
            Fmt (d.alloc_zeroed st.self.allocator l).2 l.size l.align true bt)]
       else
        st.stderr) := by
  obtain ⟨⟨e, a⟩, g, errs⟩ := st
  cases e <;> cases g <;> rfl

/-- Characterization of `realloc`'s stderr across all flag/guard states. -/
theorem realloc_stderr {S : Type} (warnF : Bool) (d : GlobalAllocM S) (bt : String)
    (st : WState S) (p : Nat) (l : Layout) (n : Nat) :
    (LoggingAllocator.realloc warnF d bt st p l n).1.stderr =
      (let s0 :=
        if warnF && decide (n > WARNING_THRESHOLD) then
          st.stderr ++ [Line.warn ("large reallocation at " ++ bt)]
        else
          st.stderr
       if st.self.enabled && !st.guard then
        s0 ++
          [Line.log ("realloc " ++ Fmt p l.size l.align false bt ++ " to " ++
            Fmt (d.realloc st.self.allocator p l n).2 n l.align true bt)]
       else
        s0) := by
  obtain ⟨⟨e, a⟩, g, errs⟩ := st
  cases e <;> cases g <;> rfl

theorem wrapperStep_logCount_disabled {S : Type} (warnF : Bool) (d : GlobalAllocM S)
    (bt : String) (st : WState S) (req : AllocReq) (h : st.self.enabled = false) :
    logCount (wrapperStep warnF d bt st req).1.stderr = logCount st.stderr := by
  cases req
  case alloc l =>
      show logCount (LoggingAllocator.alloc warnF d bt st l).1.stderr = _
      rw [alloc_stderr]
      simp [h]
      split <;> simp
  case dealloc p l =>
      show logCount (LoggingAllocator.dealloc d bt st p l).stderr = _
      rw [dealloc_stderr]
      simp [h]
  case alloc_zeroed l =>
      show logCount (LoggingAllocator.alloc_zeroed d bt st l).1.stderr = _
      rw [alloc_zeroed_stderr]
      simp [h]
  case realloc p l n =>
      show logCount (LoggingAllocator.realloc warnF d bt st p l n).1.stderr = _
      rw [realloc_stderr]
      simp [h]
      split <;> simp

theorem wrapperStep_logCount_on {S : Type} (warnF : Bool) (d : GlobalAllocM S)
    (bt : String) (st : WState S) (req : AllocReq) (he : st.self.enabled = true)
    (hg : st.guard = false) :
    logCount (wrapperStep warnF d bt st req).1.stderr = logCount st.stderr + 1 := by
  cases req
  case alloc l =>
      show logCount (LoggingAllocator.alloc warnF d bt st l).1.stderr = _
      rw [alloc_stderr]
      simp [he, hg]
      split <;> simp
  case dealloc p l =>
      show logCount (LoggingAllocator.dealloc d bt st p l).stderr = _
      rw [dealloc_stderr]
      simp [he, hg]
  case alloc_zeroed l =>
      show logCount (LoggingAllocator.alloc_zeroed d bt st l).1.stderr = _
      rw [alloc_zeroed_stderr]
      simp [he, hg]
  case realloc p l n =>
      show logCount (LoggingAllocator.realloc warnF d bt st p l n).1.stderr = _
      rw [realloc_stderr]
      simp [he, hg]
      split <;> simp

/-- C4: with the flag disabled, a run of any number of operations adds zero
guarded log lines to stderr; with the flag enabled and the calling thread's
guard inactive, every single operation adds exactly one guarded log line, and
the realloc line is one line made of the terse old descriptor and the full
new descriptor. -/
theorem log_line_counts {S : Type} (warnF : Bool) (d : GlobalAllocM S) (bt : String) :
    (∀ (reqs : List AllocReq) (st : WState S), st.self.enabled = false →
        logCount (wrapperRun warnF d bt st reqs).1.stderr = logCount st.stderr)
    ∧ (∀ (st : WState S) (req : AllocReq),
        st.self.enabled = true → st.guard = false →
        logCount (wrapperStep warnF d bt st req).1.stderr = logCount st.stderr + 1)
    ∧ (∀ (st : WState S) (p : Nat) (l : Layout) (n : Nat),
        st.self.enabled = true → st.guard = false →
        (LoggingAllocator.realloc warnF d bt st p l n).1.stderr =
          (if warnF && decide (n > WARNING_THRESHOLD) then
            st.stderr ++ [Line.warn ("large reallocation at " ++ bt)]
          else
            st.stderr) ++
          [Line.log ("realloc " ++ Fmt p l.size l.align false bt ++ " to " ++
            Fmt (d.realloc st.self.allocator p l n).2 n l.align true bt)]) := by
  refine ⟨?_, ?_, ?_⟩
  · intro reqs
    induction reqs with
    | nil => intro st _; rfl
    | cons req reqs ih =>
        intro st h
        simp only [wrapperRun]
        rw [ih _ (by rw [wrapperStep_enabled]; exact h),
          wrapperStep_logCount_disabled warnF d bt st req h]
  · exact fun st req he hg => wrapperStep_logCount_on warnF d bt st req he hg
  · intro st p l n he hg
    rw [realloc_stderr]
    simp [he, hg]

/-- Witness for C4 at concrete states, a concrete delegate and requests. -/
theorem log_line_counts_witness :
    (exOff.self.enabled = false
      ∧ logCount (wrapperRun true exD "trace" exOff exReqs).1.stderr = logCount exOff.stderr)
    ∧ (exOn.self.enabled = true ∧ exOn.guard = false
      ∧ logCount (wrapperStep true exD "trace" exOn (AllocReq.alloc ⟨16, 8⟩)).1.stderr
          = logCount exOn.stderr + 1)
    ∧ (LoggingAllocator.realloc true exD "trace" exOn 1 ⟨16, 8⟩ 64).1.stderr =
        (if true && decide (64 > WARNING_THRESHOLD) then
          exOn.stderr ++ [Line.warn ("large reallocation at " ++ "trace")]
        else
          exOn.stderr) ++
        [Line.log ("realloc " ++ Fmt 1 (Layout.mk 16 8).size (Layout.mk 16 8).align false "trace"
          ++ " to " ++ Fmt (exD.realloc exOn.self.allocator 1 ⟨16, 8⟩ 64).2 64
              (Layout.mk 16 8).align true "trace")] := by
  refine ⟨⟨rfl, (log_line_counts true exD "trace").1 exReqs exOff rfl⟩,
          ⟨rfl, rfl, (log_line_counts true exD "trace").2.1 exOn (AllocReq.alloc ⟨16, 8⟩) rfl rfl⟩,
          (log_line_counts true exD "trace").2.2 exOn 1 ⟨16, 8⟩ 64 rfl rfl⟩

/-- C5: with the `warn` feature compiled in, `alloc` adds a warning line
exactly when the requested size strictly exceeds `WARNING_THRESHOLD` (which
is one million, so a request of exactly 1000000 does not warn), and `realloc`
does the same on `new_size`; this holds for every machine state — any value
of the logging flag and of the per-thread guard — and the warning carries the
captured call stack. -/
theorem oversize_warning {S : Type} (d : GlobalAllocM S) (bt : String) (st : WState S) :
    WARNING_THRESHOLD = 1000000
    ∧ (∀ l : Layout,
        warnCount (LoggingAllocator.alloc true d bt st l).1.stderr =
          warnCount st.stderr + (if l.size > WARNING_THRESHOLD then 1 else 0))
    ∧ (∀ (p : Nat) (l : Layout) (n : Nat),
        warnCount (LoggingAllocator.realloc true d bt st p l n).1.stderr =
          warnCount st.stderr + (if n > WARNING_THRESHOLD then 1 else 0))
    ∧ (∀ l : Layout, l.size > WARNING_THRESHOLD →
        Line.warn ("large allocation at " ++ bt) ∈
          (LoggingAllocator.alloc true d bt st l).1.stderr)
    ∧ (∀ (p : Nat) (l : Layout) (n : Nat), n > WARNING_THRESHOLD →
        Line.warn ("large reallocation at " ++ bt) ∈
          (LoggingAllocator.realloc true d bt st p l n).1.stderr) := by
  refine ⟨rfl, ?_, ?_, ?_, ?_⟩
  · intro l
    rw [alloc_stderr]
    by_cases h : l.size > WARNING_THRESHOLD <;> simp [h] <;> split <;> simp
  · intro p l n
    rw [realloc_stderr]
    by_cases h : n > WARNING_THRESHOLD <;> simp [h] <;> split <;> simp
  · intro l h
    rw [alloc_stderr]
    simp [h]
    split <;> simp
  · intro p l n h
    rw [realloc_stderr]
    simp [h]
    split <;> simp

/-- Witness for C5's membership conjuncts at a concrete oversized request. -/
theorem oversize_warning_witness :
    ((1000001 : Nat) > WARNING_THRESHOLD
      ∧ Line.warn ("large allocation at " ++ "trace") ∈
          (LoggingAllocator.alloc true exD "trace" exOff ⟨1000001, 1⟩).1.stderr)
    ∧ Line.warn ("large reallocation at " ++ "trace") ∈
        (LoggingAllocator.realloc true exD "trace" exOff 1 ⟨16, 8⟩ 1000001).1.stderr := by
  refine ⟨⟨by decide, ?_⟩, ?_⟩
  · exact (oversize_warning exD "trace" exOff).2.2.2.1 ⟨1000001, 1⟩ (by decide)
  · exact (oversize_warning exD "trace" exOff).2.2.2.2 1 ⟨16, 8⟩ 1000001 (by decide)

/-- C6 counterexample: with the `warn` feature compiled in, an `alloc_zeroed`
request of size 1000001 — strictly above the threshold — emits NO warning
line (the method body in the source contains no threshold check), while an
`alloc` request of the same size emits one. -/
theorem alloc_zeroed_no_warning :
    warnCount (LoggingAllocator.alloc_zeroed exD "trace" exOff ⟨1000001, 1⟩).1.stderr = 0
    ∧ warnCount (LoggingAllocator.alloc true exD "trace" exOff ⟨1000001, 1⟩).1.stderr = 1 :=
  ⟨rfl, rfl⟩

/-- C6 (amended): `alloc_zeroed` forwards the layout to the delegate's
`alloc_zeroed`, returns the delegate's pointer unchanged, and — when logging
is enabled and the thread's guard is inactive — logs exactly one full-format
line; unlike `alloc`, it performs no oversized-request warning check, so it
never adds a warning line, whatever the requested size. -/
theorem alloc_zeroed_shape {S : Type} (d : GlobalAllocM S) (bt : String)
    (st : WState S) (l : Layout) :
    (LoggingAllocator.alloc_zeroed d bt st l).2 = (d.alloc_zeroed st.self.allocator l).2
    ∧ (LoggingAllocator.alloc_zeroed d bt st l).1.self.allocator
        = (d.alloc_zeroed st.self.allocator l).1
    ∧ warnCount (LoggingAllocator.alloc_zeroed d bt st l).1.stderr = warnCount st.stderr
    ∧ (st.self.enabled = true → st.guard = false →
        (LoggingAllocator.alloc_zeroed d bt st l).1.stderr =
          st.stderr ++
            [Line.log ("alloc_zeroed " ++
              Fmt (d.alloc_zeroed st.self.allocator l).2 l.size l.align true bt)]) := by
  refine ⟨rfl, rfl, ?_, ?_⟩
  · rw [alloc_zeroed_stderr]
    split <;> simp
  · intro he hg
    rw [alloc_zeroed_stderr]
    simp [he, hg]

/-- Witness for C6's amended conditional conjunct at a concrete state. -/
theorem alloc_zeroed_shape_witness :
    exOn.self.enabled = true ∧ exOn.guard = false
    ∧ (LoggingAllocator.alloc_zeroed exD "trace" exOn ⟨16, 8⟩).1.stderr =
        exOn.stderr ++
          [Line.log ("alloc_zeroed " ++
            Fmt (exD.alloc_zeroed exOn.self.allocator ⟨16, 8⟩).2
              (Layout.mk 16 8).size (Layout.mk 16 8).align true "trace")] :=
  ⟨rfl, rfl, (alloc_zeroed_shape exD "trace" exOn ⟨16, 8⟩).2.2.2 rfl rfl⟩

/-- C7: the terse rendering is exactly `[address=.., size=.., align=..]` with
the event's fields substituted; the full rendering is the terse text followed
by ` at:` and the captured call stack on the next line; and — with logging on
and the guard inactive — `realloc` logs the terse old descriptor with the
full new descriptor, while `alloc`, `dealloc` and `alloc_zeroed` each log a
single full-form descriptor. -/
theorem format_modes {S : Type} (d : GlobalAllocM S) (bt : String) (st : WState S) :
    (∀ p n a : Nat, Fmt p n a false bt =
        "[address=" ++ fmtPtr p ++ ", size=" ++ toString n ++ ", align=" ++
          toString a ++ "]")
    ∧ (∀ p n a : Nat, Fmt p n a true bt = Fmt p n a false bt ++ " at:\n" ++ bt)
    ∧ (st.self.enabled = true → st.guard = false →
        (∀ l : Layout, (LoggingAllocator.alloc false d bt st l).1.stderr =
          st.stderr ++
            [Line.log ("alloc " ++ Fmt (d.alloc st.self.allocator l).2 l.size l.align true bt)])
        ∧ (∀ (p : Nat) (l : Layout), (LoggingAllocator.dealloc d bt st p l).stderr =
          st.stderr ++ [Line.log ("dealloc " ++ Fmt p l.size l.align true bt)])
        ∧ (∀ l : Layout, (LoggingAllocator.alloc_zeroed d bt st l).1.stderr =
          st.stderr ++
            [Line.log ("alloc_zeroed " ++
              Fmt (d.alloc_zeroed st.self.allocator l).2 l.size l.align true bt)])
        ∧ (∀ (p : Nat) (l : Layout) (n : Nat),
            (LoggingAllocator.realloc false d bt st p l n).1.stderr =
          st.stderr ++
            [Line.log ("realloc " ++ Fmt p l.size l.align false bt ++ " to " ++
              Fmt (d.realloc st.self.allocator p l n).2 n l.align true bt)])) := by
  refine ⟨fun p n a => rfl, ?_, ?_⟩
  · intro p n a
    show "[address=" ++ fmtPtr p ++ ", size=" ++ toString n ++ ", align=" ++
          toString a ++ "] at:\n" ++ bt
        = ("[address=" ++ fmtPtr p ++ ", size=" ++ toString n ++ ", align=" ++
            toString a ++ "]") ++ " at:\n" ++ bt
    have h : ("]" : String) ++ " at:\n" = "] at:\n" := by decide
    rw [String.append_assoc _ ("]" : String) " at:\n", h]
  · intro he hg
    refine ⟨?_, ?_, ?_, ?_⟩
    · intro l
      rw [alloc_stderr]
      simp [he, hg]
    · intro p l
      rw [dealloc_stderr]
      simp [he, hg]
    · intro l
      rw [alloc_zeroed_stderr]
      simp [he, hg]
    · intro p l n
      rw [realloc_stderr]
      simp [he, hg]

/-- Witness for C7's conditional conjunct at a concrete state. -/
theorem format_modes_witness :
    exOn.self.enabled = true ∧ exOn.guard = false
    ∧ (LoggingAllocator.dealloc exD "trace" exOn 3 ⟨16, 8⟩).stderr =
        exOn.stderr ++
          [Line.log ("dealloc " ++ Fmt 3 (Layout.mk 16 8).size (Layout.mk 16 8).align true "trace")] :=
  ⟨rfl, rfl, ((format_modes exD "trace" exOn).2.2 rfl rfl).2.1 3 ⟨16, 8⟩⟩

/-- C10: the realloc log line renders the old descriptor with the original
layout's size and alignment, and the new descriptor with the requested
`new_size` paired with the ORIGINAL alignment (reallocation cannot change
alignment); spelled out with `Fmt` unfolded so both `align=` fields and the
new `size=` field are explicit. -/
theorem realloc_line_fields {S : Type} (d : GlobalAllocM S) (bt : String)
    (st : WState S) (p : Nat) (l : Layout) (n : Nat)
    (he : st.self.enabled = true) (hg : st.guard = false) :
    (LoggingAllocator.realloc false d bt st p l n).1.stderr =
      st.stderr ++
        [Line.log ("realloc " ++
          ("[address=" ++ fmtPtr p ++ ", size=" ++ toString l.size ++ ", align=" ++
            toString l.align ++ "]") ++
          " to " ++
          ("[address=" ++ fmtPtr (d.realloc st.self.allocator p l n).2 ++ ", size=" ++
            toString n ++ ", align=" ++ toString l.align ++ "] at:\n" ++ bt))] := by
  rw [realloc_stderr]
  simp [he, hg]
  rfl

/-- Witness for C10 at a concrete state, layout and new size. -/
theorem realloc_line_fields_witness :
    exOn.self.enabled = true ∧ exOn.guard = false
    ∧ (LoggingAllocator.realloc false exD "trace" exOn 1 ⟨16, 8⟩ 64).1.stderr =
        exOn.stderr ++
          [Line.log ("realloc " ++
            ("[address=" ++ fmtPtr 1 ++ ", size=" ++ toString (Layout.mk 16 8).size ++
              ", align=" ++ toString (Layout.mk 16 8).align ++ "]") ++
            " to " ++
            ("[address=" ++ fmtPtr (exD.realloc exOn.self.allocator 1 ⟨16, 8⟩ 64).2 ++
              ", size=" ++ toString (64 : Nat) ++ ", align=" ++
              toString (Layout.mk 16 8).align ++ "] at:\n" ++ "trace"))] :=
  ⟨rfl, rfl, realloc_line_fields exD "trace" exOn 1 ⟨16, 8⟩ 64 rfl rfl⟩

/-- Witness for C3: the contract instantiated at a concrete context type. -/
theorem run_guarded_contract_witness :
    GUARD_INIT = false
    ∧ (∀ (f : Bool → Nat → Bool × Nat) (x : Nat), run_guarded f true x = (true, x))
    ∧ (∀ (f : Bool → Nat → Bool × Nat) (x : Nat),
        run_guarded f false x = (false, (f true x).2))
    ∧ (∀ (f : Bool → Nat → Bool × Nat) (x : Nat),
        run_guarded (fun g y => run_guarded f g y) false x = (false, x)) :=
  run_guarded_contract Nat

/-- Witness for C8 at a concrete instance. -/
theorem toggle_frame_witness :
    ((LoggingAllocator.with_allocator (0 : Nat) false).enable_logging).logging_enabled = true
    ∧ ((LoggingAllocator.with_allocator (0 : Nat) false).disable_logging).logging_enabled = false
    ∧ ((LoggingAllocator.with_allocator (0 : Nat) false).enable_logging).allocator = 0
    ∧ ((LoggingAllocator.with_allocator (0 : Nat) false).disable_logging).allocator = 0 :=
  toggle_frame (LoggingAllocator.with_allocator (0 : Nat) false)

/-- Witness for C9 at a concrete delegate value and flag. -/
theorem constructor_flag_witness :
    (LoggingAllocator.with_allocator (7 : Nat) true).logging_enabled = true
    ∧ (LoggingAllocator.with_allocator (7 : Nat) true).allocator = 7
    ∧ LoggingAllocator.new true = LoggingAllocator.with_allocator SystemAllocator.system true
    ∧ (LoggingAllocator.new true).logging_enabled = true
    ∧ ∀ (S : Type) (warnF : Bool) (d : GlobalAllocM S) (bt : String)
        (reqs : List AllocReq) (s0 : S) (g : Bool) (errs : List Line),
        (wrapperRun warnF d bt
          { self := LoggingAllocator.with_allocator s0 true, guard := g, stderr := errs }
          reqs).1.self.logging_enabled = true :=
  constructor_flag (7 : Nat) true

end LoggingAlloc
